import Mathlib

/-!
Verification of the VR/VA benefit engine (business rules, calendar service,
consolidation merge policy and agent pipelines) against its specification.

Python dates (`datetime.date`) are modelled by the `Date` structure below
together with their proleptic-Gregorian ordinal (`toOrdinal`, the exact
formula used by CPython `date.toordinal`).  Stepping a date by
`timedelta(days=1)` is ordinal + 1, and comparison and equality of dates are
comparison and equality of ordinals (for the valid dates Python can
construct, lexicographic comparison of the fields agrees with ordinal
comparison).  Python `float` arithmetic on currency values is idealised as
exact rational arithmetic; all stated tolerances (0.01) absorb the rounding
difference.  `while` loops that advance a date one day at a time are
embedded as structural recursion on the number of iterations the loop
performs, which is fixed by the loop bounds.
-/

namespace VRSpec

/-- Python `datetime.date` field triple. -/
structure Date where
  year : Nat
  month : Nat
  day : Nat
deriving DecidableEq, Repr

/-- Gregorian leap-year test, as in CPython `calendar.isleap`. -/
def isLeapYear (y : Nat) : Bool :=
  (y % 4 == 0 && y % 100 != 0) || (y % 400 == 0)

/-- Length of a month, as returned by `calendar.monthrange(year, month)[1]`. -/
def daysInMonth (y m : Nat) : Nat :=
  if m = 2 then (if isLeapYear y then 29 else 28)
  else if m = 4 ∨ m = 6 ∨ m = 9 ∨ m = 11 then 30
  else 31

/-- Days in the year strictly before month `m` (CPython `_days_before_month`),
before the leap adjustment. -/
def monthOffset : Nat → Nat
  | 1 => 0 | 2 => 31 | 3 => 59 | 4 => 90 | 5 => 120 | 6 => 151
  | 7 => 181 | 8 => 212 | 9 => 243 | 10 => 273 | 11 => 304 | 12 => 334
  | _ => 0

/-- Days in year `y` before the first day of month `m`. -/
def daysBeforeMonth (y m : Nat) : Nat :=
  monthOffset m + (if 3 ≤ m ∧ isLeapYear y then 1 else 0)

/-- Days before January 1 of year `y` (CPython `_days_before_year`). -/
def daysBeforeYear (y : Nat) : Nat :=
  365 * (y - 1) + (y - 1) / 4 - (y - 1) / 100 + (y - 1) / 400

/-- Proleptic-Gregorian ordinal of a date (CPython `date.toordinal`):
January 1 of year 1 has ordinal 1. -/
def toOrdinal (d : Date) : Nat :=
  daysBeforeYear d.year + daysBeforeMonth d.year d.month + d.day

/-- Weekday of an ordinal, Monday = 0 … Sunday = 6 (CPython `date.weekday`:
ordinal 1 is a Monday). -/
def ordWeekday (o : Nat) : Nat := (o + 6) % 7

/-- Weekday of a date, Monday = 0 … Sunday = 6. -/
def weekday (d : Date) : Nat := ordWeekday (toOrdinal d)

/-- Python `max` on two dates (comparison through ordinals). -/
def maxDate (a b : Date) : Date := if toOrdinal a ≤ toOrdinal b then b else a

/-- Python `min` on two dates (comparison through ordinals). -/
def minDate (a b : Date) : Date := if toOrdinal a ≤ toOrdinal b then a else b

/-- Shared body of the day-stepping count loops of `business_rules.py`
(`calculate_working_days_from_date`, `calculate_working_days_until_date`,
`calculate_vacation_days`, `calculate_leave_days`): starting at ordinal
`cur`, walk `fuel` consecutive days and count those whose weekday is
Monday–Friday.  `fuel` is the number of iterations the source `while` loop
performs, fixed by its bounds. -/
def countWeekdaysFrom : Nat → Nat → Nat
  | _, 0 => 0
  | cur, n + 1 =>
      (if ordWeekday cur < 5 then 1 else 0) + countWeekdaysFrom (cur + 1) n

/-- Loop body of `DateUtils.get_working_days_between` (date_utils.py:107-138):
walk `fuel` consecutive days from ordinal `cur`, counting weekdays that are
not holidays (`holidays` given by their ordinals). -/
def getWorkingDaysBetweenGo (holidays : List Nat) : Nat → Nat → Nat
  | _, 0 => 0
  | cur, n + 1 =>
      (if ordWeekday cur < 5 && !(holidays.contains cur) then 1 else 0)
        + getWorkingDaysBetweenGo holidays (cur + 1) n

/-- `DateUtils.get_working_days_between(start_date, end_date, holidays)`
(date_utils.py:107-138): the `while current_date <= end_date` loop runs once
per day of the closed interval, so `toOrdinal end_date + 1 - toOrdinal
start_date` times (zero times when the start is after the end). -/
def get_working_days_between (start_date end_date : Date) (holidays : List Date) : Nat :=
  getWorkingDaysBetweenGo (holidays.map toOrdinal) (toOrdinal start_date)
    (toOrdinal end_date + 1 - toOrdinal start_date)

/-- Week rows of `calendar.monthcalendar`: split the padded cell list into
`rows` chunks of seven. -/
def chunkWeeks : Nat → List Nat → List (List Nat)
  | 0, _ => []
  | k + 1, cells => cells.take 7 :: chunkWeeks k (cells.drop 7)

/-- `calendar.monthcalendar` as a function of the weekday `w` of the first of
the month and the month length `n`: a matrix of Monday-first weeks whose
cells are the day numbers, with `0` padding outside the month. -/
def monthcalendarAux (w n : Nat) : List (List Nat) :=
  let rows := (w + n + 6) / 7
  chunkWeeks rows
    (List.replicate w 0 ++ (List.range n).map (· + 1)
      ++ List.replicate (rows * 7 - (w + n)) 0)

/-- `calendar.monthcalendar(year, month)` (Monday as the first weekday). -/
def monthcalendar (y m : Nat) : List (List Nat) :=
  monthcalendarAux (weekday ⟨y, m, 1⟩) (daysInMonth y m)

/-- The counting loops of `get_working_days_in_month` (date_utils.py:82-91):
`for week in cal: for day in week[0:5]: if day != 0: working_days += 1`. -/
def countWeekdayCells (cal : List (List Nat)) : Nat :=
  cal.foldl (fun acc week => acc + ((week.take 5).filter (fun d => d != 0)).length) 0

/-- Holiday filter of `get_working_days_in_month` (date_utils.py:93-99): a
holiday is subtracted when it falls in the given month of the given year and
is itself a weekday. -/
def holidayInMonthWeekday (m y : Nat) (h : Date) : Bool :=
  h.month == m && h.year == y && decide (weekday h < 5)

/-- `DateUtils.get_working_days_in_month(year, month, holidays)`
(date_utils.py:68-105): count the non-padding cells of the Monday–Friday
columns of `calendar.monthcalendar`, then decrement once for every holiday
of the month that is a weekday.  The result is an `int` (the decrements are
modelled as one subtraction of the count of such holidays). -/
def get_working_days_in_month (y m : Nat) (holidays : List Date) : Int :=
  (countWeekdayCells (monthcalendar y m) : Int)
    - ((holidays.filter (holidayInMonthWeekday m y)).length : Int)

/-- `BusinessRules.calculate_working_days(month, year, holidays)`
(business_rules.py:68-104) has the same body, line for line, as
`DateUtils.get_working_days_in_month` (only the argument order differs). -/
def calculate_working_days (month year : Nat) (holidays : List Date) : Int :=
  get_working_days_in_month year month holidays

/-- `BusinessRules.calculate_working_days_from_date(start_date, month, year)`
(business_rules.py:177-202): weekdays from `max(start_date, first_of_month)`
to the last day of the month, inclusive. -/
def calculate_working_days_from_date (start_date : Date) (month year : Nat) : Nat :=
  let first_day : Date := ⟨year, month, 1⟩
  let last_day : Date := ⟨year, month, daysInMonth year month⟩
  let actual_start := maxDate start_date first_day
  countWeekdaysFrom (toOrdinal actual_start)
    (toOrdinal last_day + 1 - toOrdinal actual_start)

/-- `BusinessRules.calculate_working_days_until_date(end_date, month, year)`
(business_rules.py:204-226): weekdays from the first day of the month to
`min(end_date, last_of_month)`, inclusive. -/
def calculate_working_days_until_date (end_date : Date) (month year : Nat) : Nat :=
  let first_day : Date := ⟨year, month, 1⟩
  let actual_end := minDate end_date ⟨year, month, daysInMonth year month⟩
  countWeekdaysFrom (toOrdinal first_day)
    (toOrdinal actual_end + 1 - toOrdinal first_day)

/-- `BusinessRules.calculate_vacation_days(start_date, end_date, month, year)`
(business_rules.py:228-259).  `None` arguments (or absent dict keys at the
caller) are `none` and give 0.  When the vacation does not start in the
reference month the function returns 0; otherwise the loop
`while current_date <= end_date and current_date <= last_day` counts
weekdays from the start up to `min(end_date, last_day)`. -/
def calculate_vacation_days (start_date end_date : Option Date) (month year : Nat) : Nat :=
  match start_date, end_date with
  | some sd, some ed =>
      if sd.month = month ∧ sd.year = year then
        let last_day : Date := ⟨year, month, daysInMonth year month⟩
        countWeekdaysFrom (toOrdinal sd)
          (min (toOrdinal ed) (toOrdinal last_day) + 1 - toOrdinal sd)
      else 0
  | _, _ => 0

/-- `BusinessRules.calculate_leave_days(start_date, end_date, month, year)`
(business_rules.py:261-292), a line-for-line duplicate of
`calculate_vacation_days` over the leave interval. -/
def calculate_leave_days (start_date end_date : Option Date) (month year : Nat) : Nat :=
  match start_date, end_date with
  | some sd, some ed =>
      if sd.month = month ∧ sd.year = year then
        let last_day : Date := ⟨year, month, daysInMonth year month⟩
        countWeekdaysFrom (toOrdinal sd)
          (min (toOrdinal ed) (toOrdinal last_day) + 1 - toOrdinal sd)
      else 0
  | _, _ => 0

/-- The `employee_data` dict consumed by
`BusinessRules.calculate_employee_working_days`, with `none` for an absent
key.  For `data_desligamento` and the interval keys a key holding `None`
behaves like an absent key (the guard tests truthiness, or the called
helper returns 0 on a falsy date); a `data_admissao` key holding `None`
would instead crash the whole computation to 0 through the outer handler —
a degenerate shape the consolidator never produces and not modelled
here. -/
structure EmployeeData where
  data_admissao : Option Date
  data_desligamento : Option Date
  data_inicio_ferias : Option Date
  data_fim_ferias : Option Date
  data_inicio_afastamento : Option Date
  data_fim_afastamento : Option Date
deriving DecidableEq, Repr

/-- `BusinessRules.calculate_employee_working_days(employee_data, month, year)`
(business_rules.py:106-175): base month weekdays, overridden by the
admission adjustment when the admission falls in the reference month, then
the termination rule (`return 0` immediately when the termination day is at
most 15, otherwise the base is recomputed up to the termination date), then
vacation and leave subtraction, and finally `max(0, base)`. -/
def calculate_employee_working_days (emp : EmployeeData) (month year : Nat) : Int :=
  let base0 : Int := calculate_working_days month year []
  let base1 : Int :=
    match emp.data_admissao with
    | some ad =>
        if ad.month = month ∧ ad.year = year then
          (calculate_working_days_from_date ad month year : Int)
        else base0
    | none => base0
  let vac : Int :=
    (calculate_vacation_days emp.data_inicio_ferias emp.data_fim_ferias month year : Int)
  let leave : Int :=
    (calculate_leave_days emp.data_inicio_afastamento emp.data_fim_afastamento month year : Int)
  match emp.data_desligamento with
  | some td =>
      if td.month = month ∧ td.year = year then
        if td.day ≤ 15 then 0
        else max 0 ((calculate_working_days_until_date td month year : Int) - vac - leave)
      else max 0 (base1 - vac - leave)
  | none => max 0 (base1 - vac - leave)

/-! ## Exclusion rules and exclusion reasons -/

/-- Python `str.lower()` on one character, for the ASCII and Latin-1
letters occurring in this code base (Latin-1 uppercase letters 0xC0–0xDE,
multiplication sign excepted, lower by the same +32 offset as ASCII). -/
def pyCharLower (c : Char) : Char :=
  if 65 ≤ c.toNat ∧ c.toNat ≤ 90 then Char.ofNat (c.toNat + 32)
  else if 192 ≤ c.toNat ∧ c.toNat ≤ 222 ∧ c.toNat ≠ 215 then Char.ofNat (c.toNat + 32)
  else c

/-- Python `str.lower()`. -/
def pyLower (s : String) : String := String.mk (s.data.map pyCharLower)

/-- Occurrence of `pat` as a contiguous sublist (Python `pat in s` on the
character lists of the strings). -/
def subOccurs (pat : List Char) : List Char → Bool
  | [] => pat.isEmpty
  | c :: rest => List.isPrefixOf pat (c :: rest) || subOccurs pat rest

/-- Python substring containment `pat in s`. -/
def containsSubstring (s pat : String) : Bool := subOccurs pat.data s.data

/-- `BusinessRules.exclusion_cargos` (business_rules.py:21-25). -/
def exclusion_cargos : List String :=
  ["diretor", "diretores", "presidente", "vice-presidente",
   "estagiário", "estagiaria", "estagiarios", "estagiarias",
   "aprendiz", "aprendizes"]

/-- `BusinessRules.exclusion_status` (business_rules.py:27-30). -/
def exclusion_status : List String :=
  ["licença maternidade", "licença paternidade", "licença médica",
   "afastamento", "suspensão", "demitido", "desligado"]

/-- A row of the DataFrame consumed by
`BusinessRules.apply_exclusion_rules`, with the three columns the filters
inspect. -/
structure DfRow where
  cargo : String
  status : String
  tipo_contrato : String
deriving DecidableEq, Repr

/-- `BusinessRules.apply_exclusion_rules(df)` (business_rules.py:32-66):
three successive `isin` filters keeping rows whose lower-cased `cargo`,
`status` and `tipo_contrato` are not *equal* to any entry of the
corresponding marker list. -/
def apply_exclusion_rules (df : List DfRow) : List DfRow :=
  ((df.filter (fun r => !(exclusion_cargos.contains (pyLower r.cargo)))).filter
      (fun r => !(exclusion_status.contains (pyLower r.status)))).filter
    (fun r => !(["estagiário", "aprendiz"].contains (pyLower r.tipo_contrato)))

/-- `CalculatorAgent._get_exclusion_reason(employee)` (calculator.py:165-183),
as a function of the employee fields it reads (`position`, `status`).
`if employee.position:` is the Python truthiness test for a non-empty
string, and the marker tests are case-insensitive *substring* tests. -/
def get_exclusion_reason (position status : String) : String :=
  let cargoReasons : List String :=
    if position ≠ "" then
      let pl := pyLower position
      if containsSubstring pl "diretor" || containsSubstring pl "presidente" then
        ["Cargo de direção"]
      else if containsSubstring pl "estagiário" || containsSubstring pl "estagiario" then
        ["Estagiário"]
      else if containsSubstring pl "aprendiz" then ["Aprendiz"]
      else []
    else []
  let reasons := cargoReasons ++ (if status = "EXTERIOR" then ["Funcionário no exterior"] else [])
  if reasons.isEmpty then "Regra de exclusão aplicada"
  else String.intercalate "; " reasons

/-! ## Data consolidation (data_consolidator.py) -/

/-- The employee records the `DataConsolidatorAgent` manipulates, with the
attributes its methods read and write (`employee.id`, `.name`, `.position`,
`.status`, `.admission_date`, `.termination_date`, vacation and leave
windows). -/
structure ConsolidatedEmployee where
  id : String
  name : String
  position : String
  status : String
  admission_date : Option Date
  termination_date : Option Date
  vacation_start : Option Date
  vacation_end : Option Date
  leave_start : Option Date
  leave_end : Option Date
deriving DecidableEq, Repr

/-- The information score of `_should_replace_employee`
(data_consolidator.py:336-337): `len(name) + (1 if admission_date else 0)`. -/
def employeeInfo (e : ConsolidatedEmployee) : Nat :=
  e.name.length + (if e.admission_date.isSome then 1 else 0)

/-- `DataConsolidatorAgent._should_replace_employee(existing, new)`
(data_consolidator.py:329-339): replace when the new record is `ATIVO` and
the existing one is not; otherwise replace exactly when the new record
carries strictly more information. -/
def _should_replace_employee (existing new_emp : ConsolidatedEmployee) : Bool :=
  if new_emp.status = "ATIVO" ∧ existing.status ≠ "ATIVO" then true
  else employeeInfo new_emp > employeeInfo existing

/-- One step of the `unique_employees` dict of `_remove_duplicates`: insert a
record keyed by id, preserving first-seen key order and replacing the stored
record in place when `_should_replace_employee` says so. -/
def dedupInsert (acc : List ConsolidatedEmployee) (e : ConsolidatedEmployee) :
    List ConsolidatedEmployee :=
  if acc.any (fun u => u.id == e.id) then
    acc.map (fun u =>
      if u.id == e.id then (if _should_replace_employee u e then e else u) else u)
  else acc ++ [e]

/-- `DataConsolidatorAgent._remove_duplicates(employees)`
(data_consolidator.py:305-327): fold the employees through the insertion-
ordered dict and return its values. -/
def _remove_duplicates (employees : List ConsolidatedEmployee) :
    List ConsolidatedEmployee :=
  employees.foldl dedupInsert []

/-- A spreadsheet row as seen by the consolidator, with dates already parsed
(`DateUtils.parse_date` yields `None`, i.e. `none`, on unparseable input). -/
structure Row where
  ID : String
  Nome : String
  Cargo : String
  Data_Admissao : Option Date
  Data_Desligamento : Option Date
  Inicio_Ferias : Option Date
  Fim_Ferias : Option Date
  Inicio_Afastamento : Option Date
  Fim_Afastamento : Option Date
deriving DecidableEq, Repr

/-- Python exceptions distinguished by the claims. -/
inductive PyError where
  | attributeError : PyError
  | validationError : PyError
deriving DecidableEq, Repr

/-- Pydantic v1 required-field validation on construction: building a model
raises `ValidationError` unless every required field name is among the
passed keyword names (extra keywords are ignored by the default config). -/
def pydanticValidate (required provided : List String) : Except PyError Unit :=
  if required.all (fun f => provided.contains f) then Except.ok ()
  else Except.error PyError.validationError

/-- Required fields of the `Employee` schema (schemas/employee.py:22-90):
`matricula`, `nome`, `data_admissao`, `cargo`, `sindicato` carry no
default. -/
def employeeRequiredFields : List String :=
  ["matricula", "nome", "data_admissao", "cargo", "sindicato"]

/-- Keyword names passed by
`DataConsolidatorAgent._create_employee_from_row`
(data_consolidator.py:380-392). -/
def createEmployeeKwargNames : List String :=
  ["id", "name", "position", "status", "admission_date", "termination_date",
   "working_days", "benefits", "exclusion_reason"]

/-- `DataConsolidatorAgent._create_employee_from_row(row, source)`
(data_consolidator.py:380-392): construct a pydantic `Employee`, which
validates the required schema fields against the passed keyword names. -/
def _create_employee_from_row (row : Row) (source : String) :
    Except PyError ConsolidatedEmployee :=
  match pydanticValidate employeeRequiredFields createEmployeeKwargNames with
  | Except.ok _ =>
      Except.ok ⟨row.ID, row.Nome, row.Cargo, source, row.Data_Admissao,
        row.Data_Desligamento, none, none, none, none⟩
  | Except.error e => Except.error e

/-- The `for _, row in df.iterrows()` loop of the three
`_consolidate_*_employees` methods: append created employees until an
exception escapes the loop, in which case the handler of the method returns
the employees accumulated so far. -/
def consolidateLoop (source : String) : List Row → List ConsolidatedEmployee →
    List ConsolidatedEmployee
  | [], acc => acc
  | r :: rs, acc =>
      match _create_employee_from_row r source with
      | Except.ok e => consolidateLoop source rs (acc ++ [e])
      | Except.error _ => acc

/-- The category-to-rows mapping `uploaded_files`; `none` means the category
key is absent. -/
structure UploadedFiles where
  ativos : Option (List Row)
  admissao : Option (List Row)
  desligados : Option (List Row)
  ferias : Option (List Row)
  afastamentos : Option (List Row)
  estagio : Option (List Row)
  aprendiz : Option (List Row)
  exterior : Option (List Row)

/-- `_consolidate_active_employees` (data_consolidator.py:89-119). -/
def _consolidate_active_employees (files : UploadedFiles) : List ConsolidatedEmployee :=
  match files.ativos with
  | some rows => consolidateLoop "ATIVO" rows []
  | none => []

/-- `_consolidate_admission_employees` (data_consolidator.py:121-151). -/
def _consolidate_admission_employees (files : UploadedFiles) : List ConsolidatedEmployee :=
  match files.admissao with
  | some rows => consolidateLoop "ADMISSAO" rows []
  | none => []

/-- `_consolidate_termination_employees` (data_consolidator.py:153-183). -/
def _consolidate_termination_employees (files : UploadedFiles) : List ConsolidatedEmployee :=
  match files.desligados with
  | some rows => consolidateLoop "DESLIGADO" rows []
  | none => []

/-- The `for employee in employees: if employee.id == employee_id: …; break`
pattern of the enrichment passes: update the first employee with the given
id, if any. -/
def updateFirstById (eid : String) (f : ConsolidatedEmployee → ConsolidatedEmployee) :
    List ConsolidatedEmployee → List ConsolidatedEmployee
  | [] => []
  | e :: rest =>
      if e.id == eid then f e :: rest else e :: updateFirstById eid f rest

/-- `_apply_vacation_data` (data_consolidator.py:223-238). -/
def _apply_vacation_data (emps : List ConsolidatedEmployee) (files : UploadedFiles) :
    List ConsolidatedEmployee :=
  match files.ferias with
  | some rows =>
      rows.foldl (fun acc r =>
        updateFirstById r.ID
          (fun e => { e with vacation_start := r.Inicio_Ferias,
                             vacation_end := r.Fim_Ferias }) acc) emps
  | none => emps

/-- `_apply_leave_data` (data_consolidator.py:240-255). -/
def _apply_leave_data (emps : List ConsolidatedEmployee) (files : UploadedFiles) :
    List ConsolidatedEmployee :=
  match files.afastamentos with
  | some rows =>
      rows.foldl (fun acc r =>
        updateFirstById r.ID
          (fun e => { e with leave_start := r.Inicio_Afastamento,
                             leave_end := r.Fim_Afastamento }) acc) emps
  | none => emps

/-- `_apply_internship_data` (data_consolidator.py:257-271). -/
def _apply_internship_data (emps : List ConsolidatedEmployee) (files : UploadedFiles) :
    List ConsolidatedEmployee :=
  match files.estagio with
  | some rows =>
      rows.foldl (fun acc r =>
        updateFirstById r.ID (fun e => { e with position := "ESTAGIÁRIO" }) acc) emps
  | none => emps

/-- `_apply_apprentice_data` (data_consolidator.py:273-287). -/
def _apply_apprentice_data (emps : List ConsolidatedEmployee) (files : UploadedFiles) :
    List ConsolidatedEmployee :=
  match files.aprendiz with
  | some rows =>
      rows.foldl (fun acc r =>
        updateFirstById r.ID (fun e => { e with position := "APRENDIZ" }) acc) emps
  | none => emps

/-- `_apply_foreign_data` (data_consolidator.py:289-303). -/
def _apply_foreign_data (emps : List ConsolidatedEmployee) (files : UploadedFiles) :
    List ConsolidatedEmployee :=
  match files.exterior with
  | some rows =>
      rows.foldl (fun acc r =>
        updateFirstById r.ID (fun e => { e with status := "EXTERIOR" }) acc) emps
  | none => emps

/-- `_apply_complementary_data` (data_consolidator.py:185-221): the five
enrichment passes in their source order. -/
def _apply_complementary_data (emps : List ConsolidatedEmployee) (files : UploadedFiles) :
    List ConsolidatedEmployee :=
  _apply_foreign_data
    (_apply_apprentice_data
      (_apply_internship_data
        (_apply_leave_data (_apply_vacation_data emps files) files) files) files) files

/-- The `{'success': …, 'data': …}` result dict of
`consolidate_employee_data`; on the error path the dict carries no data. -/
structure ConsolidateResult where
  success : Bool
  data : Option (List ConsolidatedEmployee)
deriving DecidableEq, Repr

/-- `DataConsolidatorAgent.consolidate_employee_data(uploaded_files)`
(data_consolidator.py:27-87).  Every step catches its own exceptions, so
the success path is always taken. -/
def consolidate_employee_data (files : UploadedFiles) : ConsolidateResult :=
  let active := _consolidate_active_employees files
  let admission := _consolidate_admission_employees files
  let termination := _consolidate_termination_employees files
  let all_employees := active ++ admission ++ termination
  let enriched := _apply_complementary_data all_employees files
  let final_employees := _remove_duplicates enriched
  ⟨true, some final_employees⟩

/-! ## Benefit computation (business_rules.py, calculator.py)

Currency amounts are rationals; the Python float literals 0.8 and 0.2 are
the exact rationals 4/5 and 1/5 under this idealisation. -/

/-- The value dict returned by `BusinessRules.calculate_vr_value`
(business_rules.py:294-326). -/
structure VrValues where
  total_value : ℚ
  company_value : ℚ
  employee_value : ℚ
  working_days : ℕ
  daily_value : ℚ
deriving DecidableEq, Repr

/-- `BusinessRules.calculate_vr_value(working_days, daily_value)`
(business_rules.py:294-326): `total = working_days * daily_value`, company
share 80 percent, employee share 20 percent. -/
def calculate_vr_value (working_days : ℕ) (daily_value : ℚ) : VrValues :=
  let total_value : ℚ := (working_days : ℚ) * daily_value
  { total_value := total_value
    company_value := total_value * 0.8
    employee_value := total_value * 0.2
    working_days := working_days
    daily_value := daily_value }

/-- The mutable `(total_value, daily_value)` part of a `Benefit` object as
manipulated by the clamp loop of `CalculatorAgent._apply_specific_rules`. -/
structure BenefitValues where
  total_value : ℚ
  daily_value : ℚ
deriving DecidableEq, Repr

/-- The min/max clamp step of `CalculatorAgent._apply_specific_rules`
(calculator.py:316-326): cap `total_value` at 1000, then raise it to at
least 10; whenever a clamp fires, `daily_value` is recomputed as the new
total divided by `working_days`, or set to 0 when `working_days == 0`. -/
def applyBenefitLimits (working_days : ℕ) (b : BenefitValues) : BenefitValues :=
  let b1 :=
    if b.total_value > 1000 then
      ⟨1000, if working_days > 0 then 1000 / (working_days : ℚ) else 0⟩
    else b
  if b1.total_value < 10 then
    ⟨10, if working_days > 0 then 10 / (working_days : ℚ) else 0⟩
  else b1

/-- The employee records flowing through `CalculatorAgent`, with the fields
its steps read and write. -/
structure CalcEmployee where
  status : String
  working_days : ℕ
  benefits : List BenefitValues
deriving DecidableEq, Repr

/-- Modelled from the spec: `BusinessRules.apply_specific_rules` is called
at calculator.py:313 (and coordinator.py:230) but is defined nowhere in the
source.  The spec assigns the specific-rules step no behaviour beyond the
min/max clamps that follow the call in `_apply_specific_rules`, so the
missing method is modelled as the identity on the employee. -/
def business_rules_apply_specific_rules (e : CalcEmployee) : CalcEmployee := e

/-- The per-employee body of `CalculatorAgent._apply_specific_rules`
(calculator.py:303-338): the (spec-modelled) business-rules call followed by
the clamp loop over the employee benefits. -/
def apply_specific_rules_employee (e : CalcEmployee) : CalcEmployee :=
  let e1 := business_rules_apply_specific_rules e
  { e1 with benefits := e1.benefits.map (applyBenefitLimits e1.working_days) }

/-- `BusinessRules.should_exclude_employee`, called at calculator.py:144
(and coordinator.py:217): the `BusinessRules` class
(business_rules.py:16-408) defines no such method, so in Python the
attribute lookup raises `AttributeError` on every call. -/
def should_exclude_employee (_e : CalcEmployee) : Except PyError Bool :=
  Except.error PyError.attributeError

/-- `CalculatorAgent._apply_exclusion_rules(employees)`
(calculator.py:136-163): the loop keeps non-excluded employees; it has no
handler of its own, so an exception from `should_exclude_employee`
propagates to the caller. -/
def _apply_exclusion_rules (employees : List CalcEmployee) :
    Except PyError (List CalcEmployee) :=
  employees.foldlM (fun acc e => do
    let excl ← should_exclude_employee e
    pure (if excl then acc else acc ++ [e])) []

/-- `CalculatorAgent._calculate_working_days` (calculator.py:185-211): the
per-employee call passes the pydantic `Employee` model where
`calculate_employee_working_days` expects a dict; pydantic models iterate
as (name, value) pairs, so every `'…' in employee_data` membership test is
False and the result is the unadjusted month weekday count. -/
def _calculate_working_days_step (employees : List CalcEmployee) (month year : Nat) :
    List CalcEmployee :=
  employees.map (fun e =>
    { e with working_days := (calculate_working_days month year []).toNat })

/-- Required fields of the `Benefit` schema (schemas/benefits.py:17-60):
`tipo`, `sindicato` and `valor_diario` carry no default. -/
def benefitRequiredFields : List String := ["tipo", "sindicato", "valor_diario"]

/-- Keyword names passed by the `Benefit(…)` construction in
`CalculatorAgent._calculate_vr_va_values` (calculator.py:228-236). -/
def benefitKwargNames : List String :=
  ["employee_id", "benefit_type", "daily_value", "working_days", "total_value",
   "company_percentage", "employee_percentage"]

/-- The `Benefit(…)` construction of `_calculate_vr_va_values`: pydantic
validation of the required schema fields against the passed keyword names,
yielding the stored values on success. -/
def benefit_construction (daily_value total_value : ℚ) : Except PyError BenefitValues :=
  match pydanticValidate benefitRequiredFields benefitKwargNames with
  | Except.ok _ => Except.ok ⟨total_value, daily_value⟩
  | Except.error e => Except.error e

/-- `CalculatorAgent._calculate_vr_va_values` (calculator.py:213-256): per
employee, compute the values and construct a `Benefit`; a per-employee
exception is caught and the employee is skipped. -/
def _calculate_vr_va_values_step (employees : List CalcEmployee) (daily_value : ℚ) :
    List CalcEmployee :=
  employees.foldl (fun acc e =>
    match benefit_construction daily_value (daily_value * (e.working_days : ℚ)) with
    | Except.ok b => acc ++ [{ e with benefits := [b] }]
    | Except.error _ => acc) []

/-- The `{'success': …, 'data': …}` result dict of
`calculate_benefits_for_employees`; the error dict carries no data. -/
structure CalculationResult where
  success : Bool
  data : Option (List CalcEmployee)
deriving DecidableEq, Repr

/-- `CalculatorAgent.calculate_benefits_for_employees` (calculator.py:28-94):
exclusion step, working-days step, value step and specific-rules step under
one handler that turns any escaping exception into a
`{'success': False}` result. -/
def calculate_benefits_for_employees (employees : List CalcEmployee)
    (processing_month processing_year : Nat) (daily_value : ℚ) : CalculationResult :=
  match _apply_exclusion_rules employees with
  | Except.error _ => ⟨false, none⟩
  | Except.ok filtered =>
      let withDays := _calculate_working_days_step filtered processing_month processing_year
      let withBenefits := _calculate_vr_va_values_step withDays daily_value
      let finals := withBenefits.map apply_specific_rules_employee
      ⟨true, some finals⟩

/-! ## Helper lemmas -/

/-- The day-walking loop of `get_working_days_between` counts exactly the
range elements that are weekdays and not holidays. -/
lemma getWorkingDaysBetweenGo_spec (holidays : List Nat) :
    ∀ (n cur : Nat),
      getWorkingDaysBetweenGo holidays cur n =
        ((List.range' cur n).filter
          (fun o => decide (ordWeekday o < 5) && !(holidays.contains o))).length := by
  intro n
  induction n with
  | zero => intro cur; simp [getWorkingDaysBetweenGo]
  | succ n ih =>
      intro cur
      have hgo : getWorkingDaysBetweenGo holidays cur (n + 1)
          = (if decide (ordWeekday cur < 5) && !(holidays.contains cur) then 1 else 0)
            + getWorkingDaysBetweenGo holidays (cur + 1) n := rfl
      rw [hgo, List.range'_succ, List.filter_cons, ih]
      by_cases h : (decide (ordWeekday cur < 5) && !(holidays.contains cur)) = true
      · rw [if_pos h, if_pos h, List.length_cons]; omega
      · rw [if_neg h, if_neg h]; omega

/-- With no holidays, the `get_working_days_between` loop is the shared
weekday-counting loop. -/
lemma getWorkingDaysBetweenGo_nil :
    ∀ (n cur : Nat), getWorkingDaysBetweenGo [] cur n = countWeekdaysFrom cur n := by
  intro n
  induction n with
  | zero => intro cur; rfl
  | succ n ih =>
      intro cur
      have hgo : getWorkingDaysBetweenGo [] cur (n + 1)
          = (if decide (ordWeekday cur < 5) && !(List.contains [] cur) then 1 else 0)
            + getWorkingDaysBetweenGo [] (cur + 1) n := rfl
      have hcw : countWeekdaysFrom cur (n + 1)
          = (if ordWeekday cur < 5 then 1 else 0) + countWeekdaysFrom (cur + 1) n := rfl
      rw [hgo, hcw, ih]
      simp [List.contains]

/-- Weekday of any date is one of 0…6. -/
lemma weekday_lt (d : Date) : weekday d < 7 := by
  unfold weekday ordWeekday; omega

/-- Any value of `daysInMonth` is between 28 and 31. -/
lemma daysInMonth_bounds (y m : Nat) : 28 ≤ daysInMonth y m ∧ daysInMonth y m ≤ 31 := by
  unfold daysInMonth
  split_ifs <;> omega

/-- Within one month the weekday advances with the day number modulo 7. -/
lemma weekday_day (y m i : Nat) :
    weekday ⟨y, m, i + 1⟩ = (weekday ⟨y, m, 1⟩ + i) % 7 := by
  simp only [weekday, ordWeekday, toOrdinal]
  omega

/-- For each of the 28 possible (first weekday, month length) shapes, the
Monday–Friday cell count of the `monthcalendar` matrix is the number of day
indices whose weekday is Monday–Friday. -/
lemma countWeekdayCells_monthcalendarAux :
    ∀ w : Fin 7, ∀ k : Fin 4,
      countWeekdayCells (monthcalendarAux w.val (28 + k.val))
        = ((List.range (28 + k.val)).filter
            (fun i => decide ((w.val + i) % 7 < 5))).length := by
  decide

/-- The `monthcalendar` cell count equals the weekday-date count of the
month. -/
lemma countWeekdayCells_monthcalendar (y m : Nat) :
    countWeekdayCells (monthcalendar y m)
      = ((List.range (daysInMonth y m)).filter
          (fun i => decide (weekday ⟨y, m, i + 1⟩ < 5))).length := by
  have hw : weekday ⟨y, m, 1⟩ < 7 := weekday_lt _
  obtain ⟨h28, h31⟩ := daysInMonth_bounds y m
  have hk : daysInMonth y m - 28 < 4 := by omega
  have hn : daysInMonth y m = 28 + (daysInMonth y m - 28) := by omega
  have hmain := countWeekdayCells_monthcalendarAux
    ⟨weekday ⟨y, m, 1⟩, hw⟩ ⟨daysInMonth y m - 28, hk⟩
  rw [monthcalendar, hn, hmain]
  apply congrArg
  apply List.filter_congr
  intro i _
  rw [weekday_day y m i]

/-! ## Claim theorems -/

/-- C9: `working_days_in_month(year, month, holidays)` equals the count of
Monday–Friday dates of the calendar month minus the number of holiday dates
that fall in that month and are themselves weekdays (weekend holidays
subtract nothing, being excluded by the weekday filter); in particular
January 2025 with no holidays gives 23. -/
theorem C9_working_days_in_month :
    (∀ (y m : Nat) (holidays : List Date),
      get_working_days_in_month y m holidays
        = (((List.range (daysInMonth y m)).filter
              (fun i => decide (weekday ⟨y, m, i + 1⟩ < 5))).length : Int)
          - ((holidays.filter (holidayInMonthWeekday m y)).length : Int))
    ∧ get_working_days_in_month 2025 1 [] = 23 := by
  constructor
  · intro y m holidays
    unfold get_working_days_in_month
    rw [countWeekdayCells_monthcalendar]
  · decide

/-- C10: `get_working_days_between(start_date, end_date, holidays)` counts
the weekdays of the closed day interval from `start_date` to `end_date`
that are not holidays, and returns 0 whenever the start is after the
end. -/
theorem C10_working_days_between :
    ∀ (start_date end_date : Date) (holidays : List Date),
      (get_working_days_between start_date end_date holidays
        = ((List.range' (toOrdinal start_date)
              (toOrdinal end_date + 1 - toOrdinal start_date)).filter
            (fun o => decide (ordWeekday o < 5)
              && !((holidays.map toOrdinal).contains o))).length)
      ∧ (toOrdinal end_date < toOrdinal start_date →
          get_working_days_between start_date end_date holidays = 0) := by
  intro s e hs
  constructor
  · exact getWorkingDaysBetweenGo_spec _ _ _
  · intro h
    have hz : toOrdinal e + 1 - toOrdinal s = 0 := by omega
    rw [get_working_days_between, hz]
    rfl

/-- Witness for C10: a start after the end gives 0 working days. -/
theorem C10_witness :
    get_working_days_between ⟨2025, 1, 10⟩ ⟨2025, 1, 5⟩ [] = 0 :=
  (C10_working_days_between ⟨2025, 1, 10⟩ ⟨2025, 1, 5⟩ []).2 (by decide)

/-- Vacation (and leave) subtraction vanishes when the interval start is
absent. -/
lemma calculate_vacation_days_none_start (ed : Option Date) (month year : Nat) :
    calculate_vacation_days none ed month year = 0 := by
  cases ed <;> rfl

/-- Leave subtraction vanishes when the interval start is absent. -/
lemma calculate_leave_days_none_start (ed : Option Date) (month year : Nat) :
    calculate_leave_days none ed month year = 0 := by
  cases ed <;> rfl

/-- The base month count is non-negative when no holidays are passed. -/
lemma calculate_working_days_nonneg (month year : Nat) :
    0 ≤ calculate_working_days month year [] := by
  simp [calculate_working_days, get_working_days_in_month]

/-- `get_working_days_between` with no holidays is the shared weekday count
of the ordinal interval. -/
lemma get_working_days_between_nil (s e : Date) :
    get_working_days_between s e []
      = countWeekdaysFrom (toOrdinal s) (toOrdinal e + 1 - toOrdinal s) := by
  rw [get_working_days_between]
  exact getWorkingDaysBetweenGo_nil _ _

/-- C3 (amended): when the termination date falls in the reference month,
a termination day of at most 15 forces `working_days = 0` unconditionally
(the early `return 0` precedes every other adjustment); and a termination
on the 16th yields the weekday count of the closed interval from the first
of the month to the 16th, provided no vacation and no leave interval is
recorded (otherwise those intervals are still subtracted, which the
counterexample exhibits). -/
theorem C3_termination_boundary :
    ∀ (emp : EmployeeData) (month year : Nat) (td : Date),
      emp.data_desligamento = some td → td.month = month → td.year = year →
      (td.day ≤ 15 → calculate_employee_working_days emp month year = 0)
      ∧ (td.day = 16 → emp.data_inicio_ferias = none →
          emp.data_inicio_afastamento = none →
          calculate_employee_working_days emp month year
            = (get_working_days_between ⟨year, month, 1⟩ ⟨year, month, 16⟩ [] : Int)) := by
  intro emp month year td hterm hm hy
  constructor
  · intro hday
    simp only [calculate_employee_working_days, hterm]
    rw [if_pos ⟨hm, hy⟩, if_pos hday]
  · intro hday hfer hafa
    simp only [calculate_employee_working_days, hterm, hfer, hafa,
      calculate_vacation_days_none_start, calculate_leave_days_none_start]
    rw [if_pos ⟨hm, hy⟩, if_neg (by omega : ¬ td.day ≤ 15)]
    obtain ⟨ty, tm, tdy⟩ := td
    simp only at hm hy hday
    subst hm hy hday
    have h28 := (daysInMonth_bounds ty tm).1
    have hmin : minDate ⟨ty, tm, 16⟩ ⟨ty, tm, daysInMonth ty tm⟩
        = (⟨ty, tm, 16⟩ : Date) := by
      rw [minDate, if_pos]
      simp only [toOrdinal]
      omega
    simp only [calculate_working_days_until_date, hmin, get_working_days_between_nil,
      Nat.cast_zero, sub_zero]
    exact max_eq_right (Int.natCast_nonneg _)

/-- Witness for C3: a January 2025 termination on the 10th gives 0 days; a
termination on the 16th with no vacation or leave gives the weekday count
of January 1–16. -/
theorem C3_witness :
    calculate_employee_working_days
        ⟨none, some ⟨2025, 1, 10⟩, none, none, none, none⟩ 1 2025 = 0
    ∧ calculate_employee_working_days
        ⟨none, some ⟨2025, 1, 16⟩, none, none, none, none⟩ 1 2025
      = (get_working_days_between ⟨2025, 1, 1⟩ ⟨2025, 1, 16⟩ [] : Int) :=
  ⟨(C3_termination_boundary ⟨none, some ⟨2025, 1, 10⟩, none, none, none, none⟩
      1 2025 ⟨2025, 1, 10⟩ rfl rfl rfl).1 (by decide),
   (C3_termination_boundary ⟨none, some ⟨2025, 1, 16⟩, none, none, none, none⟩
      1 2025 ⟨2025, 1, 16⟩ rfl rfl rfl).2 rfl rfl rfl⟩

/-- Counterexample for C3 as stated: an employee terminated on 2025-01-16
who also has a vacation interval January 20–24 recorded gets 7 working
days (the vacation is still subtracted), not the weekday count 12 of
January 1–16 that the claim demands for every employee terminated on the
16th. -/
theorem C3_counterexample :
    calculate_employee_working_days
        ⟨none, some ⟨2025, 1, 16⟩, some ⟨2025, 1, 20⟩, some ⟨2025, 1, 24⟩,
         none, none⟩ 1 2025 = 7
    ∧ (get_working_days_between ⟨2025, 1, 1⟩ ⟨2025, 1, 16⟩ [] : Int) = 12
    ∧ (7 : Int) ≠ 12 := by
  refine ⟨by decide, by decide, by decide⟩

/-- The working-day count of a vacation interval starting in the reference
month equals `get_working_days_between` from the start to the end capped at
the end of the month. -/
lemma calculate_vacation_days_in_month (sd ed : Date) (month year : Nat)
    (h : sd.month = month ∧ sd.year = year) :
    calculate_vacation_days (some sd) (some ed) month year
      = get_working_days_between sd
          (minDate ed ⟨year, month, daysInMonth year month⟩) [] := by
  simp only [calculate_vacation_days, if_pos h, get_working_days_between_nil]
  rw [minDate]
  by_cases hle : toOrdinal ed ≤ toOrdinal (⟨year, month, daysInMonth year month⟩ : Date)
  · rw [if_pos hle, Nat.min_eq_left hle]
  · rw [if_neg hle, Nat.min_eq_right (by omega)]

/-- C4 (amended): the rule engine subtracts a vacation interval only when
the interval *starts* in the reference month; in that case the amount
subtracted is the weekday count from the vacation start to
`min(vacation_end, last_of_month)`, and an overlapping interval that starts
before (or after) the reference month subtracts nothing.  (Stated for an
employee whose other adjustment inputs are absent, which isolates the
vacation step.) -/
theorem C4_vacation_subtraction :
    ∀ (emp : EmployeeData) (month year : Nat) (fs fe : Date),
      emp.data_inicio_ferias = some fs → emp.data_fim_ferias = some fe →
      emp.data_admissao = none → emp.data_desligamento = none →
      emp.data_inicio_afastamento = none →
      ((fs.month = month ∧ fs.year = year) →
        calculate_employee_working_days emp month year
          = max 0 (calculate_working_days month year []
              - (get_working_days_between fs
                  (minDate fe ⟨year, month, daysInMonth year month⟩) [] : Int)))
      ∧ (¬(fs.month = month ∧ fs.year = year) →
        calculate_employee_working_days emp month year
          = calculate_working_days month year []) := by
  intro emp month year fs fe hfs hfe hadm hterm hafa
  constructor
  · intro hin
    simp only [calculate_employee_working_days, hfs, hfe, hadm, hterm, hafa,
      calculate_leave_days_none_start, Nat.cast_zero, sub_zero]
    rw [calculate_vacation_days_in_month fs fe month year hin]
  · intro hout
    simp only [calculate_employee_working_days, hfs, hfe, hadm, hterm, hafa,
      calculate_leave_days_none_start, Nat.cast_zero, sub_zero]
    rw [calculate_vacation_days, if_neg hout]
    simp only [Nat.cast_zero, sub_zero]
    exact max_eq_right (calculate_working_days_nonneg month year)

/-- Witness for C4: a vacation January 20–24 inside January 2025 subtracts
its 5 weekdays from the 23 base days (18 remain); a vacation starting in
December does not affect January. -/
theorem C4_witness :
    calculate_employee_working_days
        ⟨none, none, some ⟨2025, 1, 20⟩, some ⟨2025, 1, 24⟩, none, none⟩ 1 2025
      = max 0 (calculate_working_days 1 2025 []
          - (get_working_days_between ⟨2025, 1, 20⟩
              (minDate ⟨2025, 1, 24⟩ ⟨2025, 1, daysInMonth 2025 1⟩) [] : Int))
    ∧ calculate_employee_working_days
        ⟨none, none, some ⟨2024, 12, 20⟩, some ⟨2025, 1, 10⟩, none, none⟩ 1 2025
      = calculate_working_days 1 2025 [] :=
  ⟨(C4_vacation_subtraction ⟨none, none, some ⟨2025, 1, 20⟩, some ⟨2025, 1, 24⟩,
      none, none⟩ 1 2025 ⟨2025, 1, 20⟩ ⟨2025, 1, 24⟩
      rfl rfl rfl rfl rfl).1 (by decide),
   (C4_vacation_subtraction ⟨none, none, some ⟨2024, 12, 20⟩, some ⟨2025, 1, 10⟩,
      none, none⟩ 1 2025 ⟨2024, 12, 20⟩ ⟨2025, 1, 10⟩
      rfl rfl rfl rfl rfl).2 (by decide)⟩

/-- Counterexample for C4 as stated: the vacation 2025-01-20 … 2025-02-10
overlaps February 2025 (the overlap February 1–10 contains 6 weekdays), yet
for reference month February the engine subtracts nothing: the result is
the full 20 base days, not 20 − 6. -/
theorem C4_counterexample :
    calculate_employee_working_days
        ⟨none, none, some ⟨2025, 1, 20⟩, some ⟨2025, 2, 10⟩, none, none⟩ 2 2025
      = calculate_working_days 2 2025 []
    ∧ (get_working_days_between ⟨2025, 2, 1⟩ ⟨2025, 2, 10⟩ [] : Int) = 6
    ∧ calculate_employee_working_days
        ⟨none, none, some ⟨2025, 1, 20⟩, some ⟨2025, 2, 10⟩, none, none⟩ 2 2025
      ≠ calculate_working_days 2 2025 []
          - (get_working_days_between ⟨2025, 2, 1⟩ ⟨2025, 2, 10⟩ [] : Int) := by
  refine ⟨by decide, by decide, by decide⟩

/-- De-duplicating a pair of records with equal ids keeps the second exactly
when `_should_replace_employee` says so. -/
lemma remove_duplicates_pair (e1 e2 : ConsolidatedEmployee) (h : e1.id = e2.id) :
    _remove_duplicates [e1, e2]
      = [if _should_replace_employee e1 e2 then e2 else e1] := by
  simp [_remove_duplicates, dedupInsert, h]

/-- C1 (amended): for a pair of consolidated records with the same id, an
incoming (second) `ATIVO` record always displaces a non-`ATIVO` kept record;
in every other case — including the case where the kept record is `ATIVO`
and the incoming one is not — the record with strictly more populated
informational fields (`employeeInfo`) is kept, ties keeping the first-seen
record.  In particular an `ATIVO` record is *not* always kept: a later
non-`ATIVO` record with strictly more information displaces it (see the
counterexample). -/
theorem C1_dedup_policy :
    ∀ (e1 e2 : ConsolidatedEmployee), e1.id = e2.id →
      (e2.status = "ATIVO" → e1.status ≠ "ATIVO" → _remove_duplicates [e1, e2] = [e2])
      ∧ (e1.status ≠ "ATIVO" → e2.status ≠ "ATIVO" →
          _remove_duplicates [e1, e2]
            = [if employeeInfo e1 < employeeInfo e2 then e2 else e1])
      ∧ (e1.status = "ATIVO" → e2.status ≠ "ATIVO" →
          _remove_duplicates [e1, e2]
            = [if employeeInfo e1 < employeeInfo e2 then e2 else e1]) := by
  intro e1 e2 h
  have hp := remove_duplicates_pair e1 e2 h
  refine ⟨?_, ?_, ?_⟩
  · intro h2 h1
    rw [hp]
    simp only [_should_replace_employee, if_pos (And.intro h2 h1)]
    simp
  · intro h1 h2
    rw [hp]
    by_cases hlt : employeeInfo e1 < employeeInfo e2 <;>
      simp [_should_replace_employee, hlt, h2, gt_iff_lt]
  · intro h1 h2
    rw [hp]
    by_cases hlt : employeeInfo e1 < employeeInfo e2 <;>
      simp [_should_replace_employee, hlt, h2, gt_iff_lt]

/-- Witness for C1: an incoming `ATIVO` record displaces a non-`ATIVO` one;
with neither record `ATIVO`, an information tie keeps the first-seen record;
and a kept `ATIVO` record survives an incoming non-`ATIVO` record of equal
information. -/
theorem C1_witness :
    _remove_duplicates
        [⟨"1", "X", "", "DESLIGADO", none, none, none, none, none, none⟩,
         ⟨"1", "Y", "", "ATIVO", none, none, none, none, none, none⟩]
      = [⟨"1", "Y", "", "ATIVO", none, none, none, none, none, none⟩]
    ∧ _remove_duplicates
        [⟨"2", "AA", "", "DESLIGADO", none, none, none, none, none, none⟩,
         ⟨"2", "BB", "", "ADMISSAO", none, none, none, none, none, none⟩]
      = [⟨"2", "AA", "", "DESLIGADO", none, none, none, none, none, none⟩]
    ∧ _remove_duplicates
        [⟨"3", "A", "", "ATIVO", none, none, none, none, none, none⟩,
         ⟨"3", "B", "", "DESLIGADO", none, none, none, none, none, none⟩]
      = [⟨"3", "A", "", "ATIVO", none, none, none, none, none, none⟩] :=
  ⟨(C1_dedup_policy
      ⟨"1", "X", "", "DESLIGADO", none, none, none, none, none, none⟩
      ⟨"1", "Y", "", "ATIVO", none, none, none, none, none, none⟩ rfl).1
      rfl (by decide),
   by
     rw [(C1_dedup_policy
        ⟨"2", "AA", "", "DESLIGADO", none, none, none, none, none, none⟩
        ⟨"2", "BB", "", "ADMISSAO", none, none, none, none, none, none⟩ rfl).2.1
        (by decide) (by decide)]
     decide,
   by
     rw [(C1_dedup_policy
        ⟨"3", "A", "", "ATIVO", none, none, none, none, none, none⟩
        ⟨"3", "B", "", "DESLIGADO", none, none, none, none, none, none⟩ rfl).2.2
        rfl (by decide)]
     decide⟩

/-- Counterexample for C1 as stated: of two same-id records where the first
is `ATIVO` and the second is not, `_remove_duplicates` keeps the
non-`ATIVO` record, because its one-character-longer name gives it a
strictly larger information score. -/
theorem C1_counterexample :
    _remove_duplicates
        [⟨"1", "A", "", "ATIVO", none, none, none, none, none, none⟩,
         ⟨"1", "AB", "", "DESLIGADO", none, none, none, none, none, none⟩]
      = [⟨"1", "AB", "", "DESLIGADO", none, none, none, none, none, none⟩]
    ∧ ("DESLIGADO" : String) ≠ "ATIVO" := by
  refine ⟨by decide, by decide⟩

/-- C5 (amended): `apply_exclusion_rules` keeps exactly the rows whose
lower-cased `cargo`, `status` and `tipo_contrato` are not literally equal to
one of the markers — it is an exact-equality (`isin`) filter, not a
substring filter, so a position that merely contains a marker (such as
"Diretor Financeiro") survives it.  Substring semantics lives only in
`_get_exclusion_reason`, which yields a reason containing "direção" for any
nonempty position containing "diretor" or "presidente" case-insensitively,
whatever the other fields. -/
theorem C5_category_exclusion :
    ∀ (df : List DfRow) (r : DfRow) (position status : String),
      (r ∈ apply_exclusion_rules df ↔ r ∈ df
        ∧ exclusion_cargos.contains (pyLower r.cargo) = false
        ∧ exclusion_status.contains (pyLower r.status) = false
        ∧ (["estagiário", "aprendiz"] : List String).contains (pyLower r.tipo_contrato)
            = false)
      ∧ (position ≠ "" →
          (containsSubstring (pyLower position) "diretor" = true
            ∨ containsSubstring (pyLower position) "presidente" = true) →
          containsSubstring (get_exclusion_reason position status) "direção" = true) := by
  intro df r position status
  constructor
  · simp only [apply_exclusion_rules, List.mem_filter, Bool.not_eq_true']
    tauto
  · intro hpos hsub
    have hor : (containsSubstring (pyLower position) "diretor"
        || containsSubstring (pyLower position) "presidente") = true := by
      rcases hsub with h | h <;> simp [h]
    simp only [get_exclusion_reason, if_pos hpos, hor, if_pos]
    by_cases hst : status = "EXTERIOR" <;> simp [hst] <;> decide

/-- Witness for C5: the exclusion reason computed for position
"Diretor Financeiro" contains "direção". -/
theorem C5_witness :
    containsSubstring (get_exclusion_reason "Diretor Financeiro" "ATIVO") "direção"
      = true :=
  (C5_category_exclusion [] ⟨"", "", ""⟩ "Diretor Financeiro" "ATIVO").2
    (by decide) (Or.inl (by decide))

/-- Counterexample for C5 as stated: a row whose position "Diretor
Financeiro" contains the marker "diretor" as a case-insensitive substring
is nevertheless kept by the exclusion step, because the `isin` filter
compares for equality with the marker list. -/
theorem C5_counterexample :
    apply_exclusion_rules [⟨"Diretor Financeiro", "ATIVO", "CLT"⟩]
        = [⟨"Diretor Financeiro", "ATIVO", "CLT"⟩]
    ∧ containsSubstring (pyLower "Diretor Financeiro") "diretor" = true := by
  refine ⟨by decide, by decide⟩

/-- C2 (amended): the values produced by `calculate_vr_value` satisfy both
laws exactly — `total_value = daily_value * working_days` and
`company_value + employee_value = total_value` — and therefore within the
0.01 tolerance; after the min/max clamps of `_apply_specific_rules` the
round-trip law still holds whenever `working_days > 0` (a fired clamp
recomputes `daily_value` as the new total over the days).  When
`working_days = 0` the minimum clamp breaks both laws (see the
counterexample). -/
theorem C2_benefit_invariants :
    ∀ (working_days : ℕ) (daily_value : ℚ),
      |(calculate_vr_value working_days daily_value).total_value
          - daily_value * (working_days : ℚ)| ≤ 1/100
      ∧ |(calculate_vr_value working_days daily_value).company_value
          + (calculate_vr_value working_days daily_value).employee_value
          - (calculate_vr_value working_days daily_value).total_value| ≤ 1/100
      ∧ (0 < working_days →
          |(applyBenefitLimits working_days
              ⟨(calculate_vr_value working_days daily_value).total_value,
               daily_value⟩).total_value
            - (applyBenefitLimits working_days
                ⟨(calculate_vr_value working_days daily_value).total_value,
                 daily_value⟩).daily_value * (working_days : ℚ)| ≤ 1/100) := by
  intro wd dv
  have hT : (calculate_vr_value wd dv).total_value = (wd : ℚ) * dv := rfl
  have hC : (calculate_vr_value wd dv).company_value = (wd : ℚ) * dv * 0.8 := rfl
  have hE : (calculate_vr_value wd dv).employee_value = (wd : ℚ) * dv * 0.2 := rfl
  refine ⟨?_, ?_, ?_⟩
  · rw [hT]
    have hz : (wd : ℚ) * dv - dv * wd = 0 := by ring
    rw [hz, abs_zero]
    norm_num
  · rw [hT, hC, hE]
    have hz : (wd : ℚ) * dv * 0.8 + (wd : ℚ) * dv * 0.2 - (wd : ℚ) * dv = 0 := by ring
    rw [hz, abs_zero]
    norm_num
  · intro hwd
    have hne : ((wd : ℚ)) ≠ 0 := Nat.cast_ne_zero.mpr (by omega)
    rw [hT]
    by_cases h1 : ((wd : ℚ) * dv) > 1000
    · have hb : applyBenefitLimits wd ⟨(wd : ℚ) * dv, dv⟩ = ⟨1000, 1000 / (wd : ℚ)⟩ := by
        simp only [applyBenefitLimits, if_pos h1, if_pos hwd]
        norm_num
      rw [hb]
      show |(1000 : ℚ) - 1000 / (wd : ℚ) * wd| ≤ 1/100
      have hz : (1000 : ℚ) - 1000 / (wd : ℚ) * wd = 0 := by field_simp
      rw [hz, abs_zero]
      norm_num
    · by_cases h2 : ((wd : ℚ) * dv) < 10
      · have hb : applyBenefitLimits wd ⟨(wd : ℚ) * dv, dv⟩ = ⟨10, 10 / (wd : ℚ)⟩ := by
          simp only [applyBenefitLimits, if_neg h1, if_pos h2, if_pos hwd]
        rw [hb]
        show |(10 : ℚ) - 10 / (wd : ℚ) * wd| ≤ 1/100
        have hz : (10 : ℚ) - 10 / (wd : ℚ) * wd = 0 := by field_simp
        rw [hz, abs_zero]
        norm_num
      · have hb : applyBenefitLimits wd ⟨(wd : ℚ) * dv, dv⟩ = ⟨(wd : ℚ) * dv, dv⟩ := by
          simp only [applyBenefitLimits, if_neg h1, if_neg h2]
        rw [hb]
        show |(wd : ℚ) * dv - dv * wd| ≤ 1/100
        have hz : (wd : ℚ) * dv - dv * wd = 0 := by ring
        rw [hz, abs_zero]
        norm_num

/-- Witness for C2: 22 working days at 25.0 per day pass the clamp
round-trip law. -/
theorem C2_witness :
    (0 : ℕ) < 22
    ∧ |(applyBenefitLimits 22
          ⟨(calculate_vr_value 22 25).total_value, (25 : ℚ)⟩).total_value
        - (applyBenefitLimits 22
            ⟨(calculate_vr_value 22 25).total_value, (25 : ℚ)⟩).daily_value
          * ((22 : ℕ) : ℚ)| ≤ 1/100 :=
  ⟨by decide, (C2_benefit_invariants 22 25).2.2 (by decide)⟩

/-- Counterexample for C2 as stated: a benefit with `working_days = 0`
(total 0) triggers the minimum clamp, ending with `total_value = 10` and
`daily_value = 0`; the round-trip residual is 10 and the company and
employee shares (both 0) no longer sum to the clamped total. -/
theorem C2_counterexample :
    ¬ (|(applyBenefitLimits 0
            ⟨(calculate_vr_value 0 25).total_value,
             (calculate_vr_value 0 25).daily_value⟩).total_value
          - (applyBenefitLimits 0
              ⟨(calculate_vr_value 0 25).total_value,
               (calculate_vr_value 0 25).daily_value⟩).daily_value * ((0 : ℕ) : ℚ)|
          ≤ 1/100
        ∧ |(calculate_vr_value 0 25).company_value
            + (calculate_vr_value 0 25).employee_value
            - (applyBenefitLimits 0
                ⟨(calculate_vr_value 0 25).total_value,
                 (calculate_vr_value 0 25).daily_value⟩).total_value| ≤ 1/100) := by
  intro hcontra
  have h1 := hcontra.1
  norm_num [calculate_vr_value, applyBenefitLimits] at h1

/-- C6 (amended): an employee not excluded by the category-exclusion step
whose computed `working_days` is 0 keeps its non-excluded status (the
working-days step writes only `working_days`, and no step writes the
status) and the value computed for it is `daily_value * 0 = 0`; but no
zero-value Benefit is ever attached: the `Benefit(…)` construction of
`_calculate_vr_va_values` (calculator.py:228-236) always raises a pydantic
ValidationError, because none of the required schema fields `tipo`,
`sindicato`, `valor_diario` is among the passed keywords, the per-employee
handler catches it, and the employee is dropped from the benefit list —
so the employee receives no benefit at all, zero-valued or otherwise. -/
theorem C6_zero_day_participation :
    ∀ (e : CalcEmployee) (daily_value : ℚ) (month year : Nat),
      e.working_days = 0 → e.status ≠ "EXCLUIDO" →
      ((_calculate_working_days_step [e] month year).map CalcEmployee.status
          = [e.status]
       ∧ daily_value * (e.working_days : ℚ) = 0
       ∧ benefit_construction daily_value (daily_value * (e.working_days : ℚ))
           = Except.error PyError.validationError
       ∧ _calculate_vr_va_values_step [e] daily_value = []) := by
  intro e dv month year hwd hst
  refine ⟨rfl, ?_, rfl, rfl⟩
  rw [hwd]
  simp

/-- Witness for C6: the concrete non-excluded zero-day employee keeps its
status through the working-days step, its computed value is 0, and the
value step drops it, attaching no benefit. -/
theorem C6_witness :
    (_calculate_working_days_step [⟨"ATIVO", 0, []⟩] 1 2025).map CalcEmployee.status
        = ["ATIVO"]
    ∧ (25 : ℚ) * ((0 : ℕ) : ℚ) = 0
    ∧ benefit_construction 25 ((25 : ℚ) * ((0 : ℕ) : ℚ))
        = Except.error PyError.validationError
    ∧ _calculate_vr_va_values_step [⟨"ATIVO", 0, []⟩] 25 = [] :=
  C6_zero_day_participation ⟨"ATIVO", 0, []⟩ 25 1 2025 rfl (by decide)

/-- Counterexample for C6 as stated: after the value step and the
specific-rules (min/max clamp) step run on the non-excluded zero-day
employee, the result list is empty — the employee received no benefit at
all (the `Benefit(…)` construction raised a ValidationError and the
employee was skipped), so in particular no benefit with `total_value = 0`
exists. -/
theorem C6_counterexample :
    ((_calculate_vr_va_values_step [⟨"ATIVO", 0, []⟩] 25).map
        apply_specific_rules_employee) = []
    ∧ benefit_construction 25 ((25 : ℚ) * ((0 : ℕ) : ℚ))
        = Except.error PyError.validationError :=
  ⟨rfl, rfl⟩

/-- C7: for every non-empty employee list
`calculate_benefits_for_employees` returns success False and computes no
benefits, because `_apply_exclusion_rules` calls
`BusinessRules.should_exclude_employee`, a method defined nowhere on
`BusinessRules`, and the resulting AttributeError escapes to the top-level
handler; for the empty list it returns success True (with an empty result
list, since no loop body runs). -/
theorem C7_calculator_error :
    ∀ (employees : List CalcEmployee) (m y : Nat) (dv : ℚ),
      (employees ≠ [] →
        calculate_benefits_for_employees employees m y dv = ⟨false, none⟩)
      ∧ calculate_benefits_for_employees [] m y dv = ⟨true, some []⟩ := by
  intro emps m y dv
  constructor
  · intro hne
    cases emps with
    | nil => exact absurd rfl hne
    | cons e rest => rfl
  · rfl

/-- Witness for C7: a singleton list produces a failed result carrying no
data. -/
theorem C7_witness :
    calculate_benefits_for_employees [⟨"ATIVO", 0, []⟩] 1 2025 25
      = ⟨false, none⟩ :=
  (C7_calculator_error [⟨"ATIVO", 0, []⟩] 1 2025 25).1 (by simp)

/-- Every `_create_employee_from_row` call fails pydantic validation: none
of the required `Employee` schema fields is among the passed keywords. -/
lemma create_employee_validation_error (row : Row) (source : String) :
    _create_employee_from_row row source
      = Except.error PyError.validationError := rfl

/-- A fold whose step maps the empty accumulator to itself stays empty. -/
lemma foldl_nil_invariant (g : List ConsolidatedEmployee → Row → List ConsolidatedEmployee)
    (hg : ∀ r, g [] r = []) :
    ∀ rows : List Row, List.foldl g [] rows = [] := by
  intro rows
  induction rows with
  | nil => rfl
  | cons r rs ih => rw [List.foldl_cons, hg r]; exact ih

/-- C8: for every input `consolidate_employee_data` returns success True
with an empty employee list: every `_create_employee_from_row` call raises
a pydantic validation error (the `Employee` schema requires `matricula`,
`nome`, `data_admissao`, `cargo` and `sindicato`, none of which is among
the `id`/`name`/`position`/… keywords actually passed), each per-category
handler catches it yielding an empty category list, and the enrichment,
de-duplication and validation steps act on the empty list. -/
theorem C8_consolidation_empty :
    ∀ (files : UploadedFiles),
      consolidate_employee_data files = ⟨true, some []⟩
      ∧ (∀ (row : Row) (source : String),
          _create_employee_from_row row source
            = Except.error PyError.validationError) := by
  intro files
  have hcat : ∀ (src : String) (rows : List Row), consolidateLoop src rows [] = [] := by
    intro src rows
    cases rows with
    | nil => rfl
    | cons r rs => rfl
  have hactive : _consolidate_active_employees files = [] := by
    unfold _consolidate_active_employees
    cases files.ativos with
    | none => rfl
    | some rows => exact hcat "ATIVO" rows
  have hadm : _consolidate_admission_employees files = [] := by
    unfold _consolidate_admission_employees
    cases files.admissao with
    | none => rfl
    | some rows => exact hcat "ADMISSAO" rows
  have hterm : _consolidate_termination_employees files = [] := by
    unfold _consolidate_termination_employees
    cases files.desligados with
    | none => rfl
    | some rows => exact hcat "DESLIGADO" rows
  have hvac : _apply_vacation_data [] files = [] := by
    unfold _apply_vacation_data
    cases files.ferias with
    | none => rfl
    | some rows => exact foldl_nil_invariant _ (fun r => rfl) rows
  have hleave : ∀ emps, emps = [] → _apply_leave_data emps files = [] := by
    intro emps h
    subst h
    unfold _apply_leave_data
    cases files.afastamentos with
    | none => rfl
    | some rows => exact foldl_nil_invariant _ (fun r => rfl) rows
  have hint : ∀ emps, emps = [] → _apply_internship_data emps files = [] := by
    intro emps h
    subst h
    unfold _apply_internship_data
    cases files.estagio with
    | none => rfl
    | some rows => exact foldl_nil_invariant _ (fun r => rfl) rows
  have happr : ∀ emps, emps = [] → _apply_apprentice_data emps files = [] := by
    intro emps h
    subst h
    unfold _apply_apprentice_data
    cases files.aprendiz with
    | none => rfl
    | some rows => exact foldl_nil_invariant _ (fun r => rfl) rows
  have hfor : ∀ emps, emps = [] → _apply_foreign_data emps files = [] := by
    intro emps h
    subst h
    unfold _apply_foreign_data
    cases files.exterior with
    | none => rfl
    | some rows => exact foldl_nil_invariant _ (fun r => rfl) rows
  have hcomp : _apply_complementary_data [] files = [] := by
    unfold _apply_complementary_data
    exact hfor _ (happr _ (hint _ (hleave _ hvac)))
  constructor
  · unfold consolidate_employee_data
    rw [hactive, hadm, hterm]
    simp only [List.append_nil]
    rw [hcomp]
    rfl
  · intro row source
    exact create_employee_validation_error row source

end VRSpec
